import Mathlib

/-!
Shallow embedding of the transport and access-control core of the
claude-prompts-mcp server, together with proofs about it.

Sources embedded:
* `McpOAuthServer` (OAuth 2.1 endpoints: /authorize, /token
  authorization_code grant, /introspect, token validation);
* `HttpMcpTransport.validateAuthentication` — both drafts present in
  `server/src/transport/http.ts` (a browser-lenient first draft and a strict
  second draft) — and `sendResponse`;
* `StreamableHttpTransport` (`handlePost`, `processRequest`,
  `handleSingleRequest`, `handleRequestBatch`, `streamResponse`,
  `streamBatchResponse`, `sendSSEEvent`).

Conventions of the embedding:
* JavaScript `Map` objects become functions `String → Option α` (`Store α`);
  `Map.set`/`Map.delete`/`Map.get` become `storeSet`/`storeDel`/application.
* `Date.now()` becomes an explicit `now : Nat` parameter (milliseconds).
* Randomness (`crypto.randomBytes(...)`, `uuidv4()`) becomes explicit
  parameters carrying the freshly generated string(s).
* Node's `crypto.createHash("sha256")...digest("base64url")` is an external
  library primitive; it is abstracted as a parameter `hash : String → String`.
  None of the proofs depend on properties of the hash.
* HTTP-header values read with `req.get(...)` are `Option String` (`none` =
  header absent).  JavaScript truthiness of a string value (`if (s)`) is
  `jsTruthyS`; absent-or-empty is `jsFalsyS`.
* Request-body string fields destructured from `req.body` use `""` to play
  the role of the JavaScript falsy values (absent / empty string), matching
  the `if (!field)` checks in the source.
-/

/-- JavaScript falsiness of an optional string value: `undefined` or `""`. -/
def jsFalsyS : Option String → Bool
  | none => true
  | some s => s = ""

/-- JavaScript truthiness of an optional string value. -/
def jsTruthyS (o : Option String) : Bool := !(jsFalsyS o)

/-- Does `pat` occur at the start of `s` (as character lists)? -/
def isPrefixL : List Char → List Char → Bool
  | [], _ => true
  | _ :: _, [] => false
  | p :: ps, c :: cs => p = c && isPrefixL ps cs

/-- Does `pat` occur anywhere in `s` (as character lists)? -/
def occursL : List Char → List Char → Bool
  | pat, [] => pat.isEmpty
  | pat, c :: cs => isPrefixL pat (c :: cs) || occursL pat cs

/-- JavaScript `s.includes(pat)`. -/
def jsIncludes (s pat : String) : Bool := occursL pat.data s.data

/-- JavaScript `s.startsWith(pat)`. -/
def jsStartsWith (s pat : String) : Bool := isPrefixL pat.data s.data

/-- JavaScript `s.substring(n)`: drop the first `n` characters. -/
def jsSubstringFrom (s : String) (n : Nat) : String := ⟨s.data.drop n⟩

/-- Helper for `jsSplitComma`: accumulate the current chunk (reversed). -/
def splitCommaAux : List Char → List Char → List String
  | [], acc => [⟨acc.reverse⟩]
  | c :: cs, acc =>
    if c = ',' then ⟨acc.reverse⟩ :: splitCommaAux cs [] else splitCommaAux cs (c :: acc)

/-- JavaScript `s.split(',')` (note `"".split(',') = [""]`). -/
def jsSplitComma (s : String) : List String := splitCommaAux s.data []

/-- Whitespace characters removed by JavaScript `String.prototype.trim`. -/
def isWsp (c : Char) : Bool := c = ' ' || c = '\t' || c = '\n' || c = '\r'

/-- JavaScript `s.trim()`. -/
def jsTrim (s : String) : String :=
  ⟨((s.data.dropWhile isWsp).reverse.dropWhile isWsp).reverse⟩

/-- An in-memory `Map<string, α>`, modelled extensionally. -/
abbrev Store (α : Type) : Type := String → Option α

/-- `Map.set`. -/
def storeSet {α : Type} (m : Store α) (k : String) (v : α) : Store α :=
  fun k' => if k' = k then some v else m k'

/-- `Map.delete`. -/
def storeDel {α : Type} (m : Store α) (k : String) : Store α :=
  fun k' => if k' = k then none else m k'

/-- `new Map()`. -/
def storeEmpty {α : Type} : Store α := fun _ => none

/-! ## OAuth 2.1 subsystem (`McpOAuthServer`) -/

/-- A registered OAuth client (fields used by the embedded handlers). -/
structure ClientData where
  client_secret : String
  redirect_uris : List String
  scope : String
deriving DecidableEq

/-- The record stored in `authorizationCodes` by `handleAuthorizationRequest`. -/
structure CodeData where
  client_id : String
  redirect_uri : String
  scope : String
  code_challenge : String
  code_challenge_method : String
  created_at : Nat
  expires_at : Nat
deriving DecidableEq

/-- The `AccessToken` record stored in `accessTokens`. -/
structure AccessToken where
  access_token : String
  token_type : String
  expires_in : Nat
  scope : String
  created_at : Nat
deriving DecidableEq

/-- The record stored in `refreshTokens` by `generateRefreshToken`. -/
structure RefreshData where
  client_id : String
  scope : String
  created_at : Nat
deriving DecidableEq

/-- The four in-memory stores of `McpOAuthServer`. -/
structure OAuthState where
  clients : Store ClientData
  authorizationCodes : Store CodeData
  accessTokens : Store AccessToken
  refreshTokens : Store RefreshData

/-- Query parameters of `GET /authorize` (each `req.query` field). -/
structure AuthorizeQuery where
  response_type : Option String
  client_id : Option String
  redirect_uri : Option String
  scope : Option String
  state : Option String
  code_challenge : Option String
  code_challenge_method : Option String
deriving DecidableEq

/-- Outcome of `GET /authorize`: a 400 OAuth error (`sendError`) or a 302
redirect to `redirect_uri?code=...&state=...`. -/
inductive AuthorizeResult where
  | err (error : String) (error_description : String)
  | redirect (redirect_uri : String) (code : String) (state : Option String)
deriving DecidableEq

/-- `McpOAuthServer.handleAuthorizationRequest`.  `newCode` is the value
produced by `generateSecureToken()`. -/
def handleAuthorizationRequest (now : Nat) (newCode : String) (q : AuthorizeQuery)
    (st : OAuthState) : AuthorizeResult × OAuthState :=
  if jsFalsyS q.response_type || jsFalsyS q.client_id || jsFalsyS q.redirect_uri then
    (.err "invalid_request" "Missing required parameters", st)
  else if q.response_type ≠ some "code" then
    (.err "unsupported_response_type" "Only authorization code flow is supported", st)
  else if jsFalsyS q.code_challenge || q.code_challenge_method ≠ some "S256" then
    (.err "invalid_request" "PKCE with S256 is required", st)
  else
    match st.clients (q.client_id.getD "") with
    | none => (.err "invalid_client" "Unknown client", st)
    | some client =>
      if !(client.redirect_uris.contains (q.redirect_uri.getD "")) then
        (.err "invalid_request" "Invalid redirect URI", st)
      else
        let codeData : CodeData :=
          { client_id := q.client_id.getD ""
            redirect_uri := q.redirect_uri.getD ""
            scope := if jsFalsyS q.scope then "mcp" else q.scope.getD ""
            code_challenge := q.code_challenge.getD ""
            code_challenge_method := q.code_challenge_method.getD ""
            created_at := now
            expires_at := now + 600000 }
        (.redirect (q.redirect_uri.getD "") newCode
            (if jsTruthyS q.state then q.state else none),
         { st with authorizationCodes := storeSet st.authorizationCodes newCode codeData })

/-- `McpOAuthServer.generateAccessToken` (the fresh random token is the
parameter `token`). -/
def generateAccessToken (now : Nat) (token : String) (scope : String)
    (st : OAuthState) : AccessToken × OAuthState :=
  let tok : AccessToken :=
    { access_token := token, token_type := "Bearer", expires_in := 3600,
      scope := scope, created_at := now }
  (tok, { st with accessTokens := storeSet st.accessTokens token tok })

/-- `McpOAuthServer.generateRefreshToken`. -/
def generateRefreshToken (now : Nat) (token : String) (clientId scope : String)
    (st : OAuthState) : String × OAuthState :=
  let rec0 : RefreshData := { client_id := clientId, scope := scope, created_at := now }
  (token, { st with refreshTokens := storeSet st.refreshTokens token rec0 })

/-- Body of `POST /token` with `grant_type=authorization_code`; `""` plays the
role of a missing field, matching the `if (!code || ...)` check. -/
structure TokenGrantBody where
  code : String
  redirect_uri : String
  client_id : String
  code_verifier : String
deriving DecidableEq

/-- Outcome of the token endpoint: the 200 JSON body of a successful grant, or
a 400 OAuth error (`sendError`). -/
inductive TokenResult where
  | ok (access_token : String) (token_type : String) (expires_in : Nat)
      (refresh_token : String) (scope : String)
  | err (error : String) (error_description : String)
deriving DecidableEq

/-- `McpOAuthServer.handleAuthorizationCodeGrant`.  `hash` abstracts
`crypto.createHash("sha256").update(·).digest("base64url")`; `newAccessToken`
and `newRefreshToken` are the two fresh `generateSecureToken()` values. -/
def handleAuthorizationCodeGrant (hash : String → String) (now : Nat)
    (newAccessToken newRefreshToken : String) (body : TokenGrantBody)
    (st : OAuthState) : TokenResult × OAuthState :=
  if body.code = "" || body.redirect_uri = "" || body.client_id = "" ||
      body.code_verifier = "" then
    (.err "invalid_request" "Missing required parameters", st)
  else
    match st.authorizationCodes body.code with
    | none => (.err "invalid_grant" "Invalid authorization code", st)
    | some codeData =>
      if codeData.expires_at < now then
        (.err "invalid_grant" "Authorization code expired",
         { st with authorizationCodes := storeDel st.authorizationCodes body.code })
      else
        let codeChallenge := hash body.code_verifier
        if codeChallenge ≠ codeData.code_challenge then
          (.err "invalid_grant" "Invalid code verifier", st)
        else if codeData.client_id ≠ body.client_id ||
            codeData.redirect_uri ≠ body.redirect_uri then
          (.err "invalid_grant" "Client or redirect URI mismatch", st)
        else
          let ga := generateAccessToken now newAccessToken codeData.scope st
          let gr := generateRefreshToken now newRefreshToken body.client_id codeData.scope ga.2
          let st3 := { gr.2 with
            authorizationCodes := storeDel gr.2.authorizationCodes body.code }
          (.ok ga.1.access_token "Bearer" ga.1.expires_in gr.1 ga.1.scope, st3)

/-- Result of `POST /introspect`. -/
inductive IntrospectResult where
  | inactive
  | active (scope : String) (client_id : String) (token_type : String) (exp : Nat)
deriving DecidableEq

/-- `McpOAuthServer.handleTokenIntrospection` (the `client_id` field of the
active reply is `tokenData.access_token` in the source, reproduced as-is). -/
def handleTokenIntrospection (now : Nat) (token : String) (st : OAuthState) :
    IntrospectResult × OAuthState :=
  match st.accessTokens token with
  | none => (.inactive, st)
  | some tokenData =>
    if tokenData.created_at + tokenData.expires_in * 1000 < now then
      (.inactive, { st with accessTokens := storeDel st.accessTokens token })
    else
      (.active tokenData.scope tokenData.access_token tokenData.token_type
        ((tokenData.created_at + tokenData.expires_in * 1000) / 1000), st)

/-- `McpOAuthServer.validateAccessToken` (lazy expiry: an expired token is
deleted on lookup). -/
def validateAccessToken (now : Nat) (token : String) (st : OAuthState) :
    Bool × OAuthState :=
  match st.accessTokens token with
  | none => (false, st)
  | some tokenData =>
    if tokenData.created_at + tokenData.expires_in * 1000 < now then
      (false, { st with accessTokens := storeDel st.accessTokens token })
    else
      (true, st)

/-! ## Authentication gate (`HttpMcpTransport.validateAuthentication`)

`server/src/transport/http.ts` contains two drafts of `HttpMcpTransport`.
Both define a method named `validateAuthentication`; since Lean cannot give
two top-level definitions the same name, the strict second draft keeps the
source name and the browser-lenient first draft is suffixed. -/

/-- The header fields of an incoming request read by the gate. -/
structure AuthRequest where
  method : String
  authorization : Option String
  origin : Option String
  userAgent : Option String
deriving DecidableEq

/-- The `{ isValid, error? }` object returned by the gate. -/
structure AuthCheck where
  isValid : Bool
  error : Option String
deriving DecidableEq

/-- `(process.env.MCP_API_KEYS || '').split(',').filter(key => key.trim())`. -/
def apiKeysFromEnv (env : Option String) : List String :=
  (jsSplitComma (env.getD "")).filter (fun k => jsTrim k ≠ "")

/-- `validateAuthentication` of the second (strict) `HttpMcpTransport` draft.
`authRequired` is `process.env.MCP_REQUIRE_AUTH === 'true'`; the OAuth store
lives in `st` because `oauthServer.validateAccessToken` deletes expired tokens. -/
def validateAuthentication (authRequired : Bool) (apiKeysEnv : Option String)
    (now : Nat) (req : AuthRequest) (st : OAuthState) : AuthCheck × OAuthState :=
  if !authRequired then (⟨true, none⟩, st)
  else
    match req.authorization with
    | none => (⟨false, some "Missing Authorization header with Bearer token"⟩, st)
    | some authHeader =>
      if !(jsStartsWith authHeader "Bearer ") then
        (⟨false, some "Missing Authorization header with Bearer token"⟩, st)
      else
        let token := jsSubstringFrom authHeader 7
        let va := validateAccessToken now token st
        if va.1 then (⟨true, none⟩, va.2)
        else
          let validApiKeys := apiKeysFromEnv apiKeysEnv
          if validApiKeys.contains token then (⟨true, none⟩, va.2)
          else (⟨false, some "Invalid or expired access token/API key"⟩, va.2)

/-- `validateAuthentication` of the first (browser-lenient) draft: when the
Bearer header is missing it admits every `GET`, and admits requests that carry
an `Origin` header or a Mozilla/Chrome/Safari `User-Agent`. -/
def validateAuthenticationBrowserLenient (authRequired : Bool)
    (apiKeysEnv : Option String) (now : Nat) (req : AuthRequest)
    (st : OAuthState) : AuthCheck × OAuthState :=
  if !authRequired then (⟨true, none⟩, st)
  else
    let missing :=
      match req.authorization with
      | none => true
      | some authHeader => !(jsStartsWith authHeader "Bearer ")
    if missing then
      if req.method = "GET" then (⟨true, none⟩, st)
      else
        let userAgent := req.userAgent.getD ""
        let isBrowserRequest := jsTruthyS req.origin ||
          jsIncludes userAgent "Mozilla" || jsIncludes userAgent "Chrome" ||
          jsIncludes userAgent "Safari"
        if isBrowserRequest then (⟨true, none⟩, st)
        else (⟨false, some "Missing Authorization header with Bearer token"⟩, st)
    else
      let authHeader := (req.authorization).getD ""
      let token := jsSubstringFrom authHeader 7
      let va := validateAccessToken now token st
      if va.1 then (⟨true, none⟩, va.2)
      else
        let validApiKeys := apiKeysFromEnv apiKeysEnv
        if validApiKeys.contains token then (⟨true, none⟩, va.2)
        else (⟨false, some "Invalid or expired access token/API key"⟩, va.2)

/-- `HttpMcpTransport.sendResponse`, reduced to the HTTP body bytes it writes
for an already-serialized JSON-RPC reply `responseJson`: SSE framing when the
`Accept` header is present and contains `text/event-stream`, raw JSON
otherwise (`res.json` serializes with the same `JSON.stringify`). -/
def sendResponseBody (accept : Option String) (responseJson : String) : String :=
  if jsTruthyS accept && jsIncludes (accept.getD "") "text/event-stream" then
    "data: " ++ responseJson ++ "\n\n"
  else responseJson

/-! ## Streamable HTTP transport (`StreamableHttpTransport`) -/

/-- A JSON-RPC `id` value (number, string or `null`). -/
inductive RpcId where
  | num (n : Int)
  | str (s : String)
  | null
deriving DecidableEq

/-- JavaScript `request.id || null` (`0`, `""` and `null` are falsy). -/
def idOrNull : Option RpcId → RpcId
  | some (.num n) => if n = 0 then .null else .num n
  | some (.str s) => if s = "" then .null else .str s
  | some .null => .null
  | none => .null

/-- An element of a POST body: the fields of a JSON-RPC message the dispatcher
inspects.  `paramsProtocolVersion` models `request.params?.protocolVersion`,
the only part of `params` the embedded handlers read. -/
structure RpcMsg where
  method : Option String
  id : Option RpcId
  paramsProtocolVersion : Option String
deriving DecidableEq

/-- A tool descriptor as produced by `getToolsFromServer` from the SDK's
registration map (an external collaborator, supplied as context). -/
structure ToolDesc where
  name : String
  description : String
deriving DecidableEq

/-- A prompt descriptor as produced by `getPromptsFromServer`. -/
structure PromptDesc where
  name : String
  description : String
deriving DecidableEq

/-- External context: the capability lists derived from the MCP server's
registries by `getToolsFromServer` / `getPromptsFromServer`. -/
structure ServerCtx where
  tools : List ToolDesc
  prompts : List PromptDesc
deriving DecidableEq

/-- The `result` member of a reply (`handleInitialize` also returns the
constant `capabilities`/`serverInfo` objects alongside `protocolVersion`;
they carry no information and are represented by the constructor itself). -/
inductive ResultBody where
  | initResult (protocolVersion : String)
  | promptsList (prompts : List PromptDesc)
  | toolsList (tools : List ToolDesc)
deriving DecidableEq

/-- The `error` member of a reply. -/
structure ErrorBody where
  code : Int
  message : String
deriving DecidableEq

/-- A JSON-RPC reply object as built by the transport.  `_sessionId` is the
extra field `processRequest` spreads into an init result when it has created
a session. -/
structure RpcResponse where
  jsonrpc : String
  result : Option ResultBody
  error : Option ErrorBody
  id : RpcId
  _sessionId : Option String
deriving DecidableEq

/-- `StreamableHttpTransport.handleInitialize` (protocol-version negotiation
against the fixed allow-list, defaulting to the newest). -/
def handleInitMsg (request : RpcMsg) : RpcResponse :=
  let supportedVersions := ["2024-11-05", "2025-03-26"]
  let protocolVersion :=
    match request.paramsProtocolVersion with
    | some v => if supportedVersions.contains v then v else "2025-03-26"
    | none => "2025-03-26"
  { jsonrpc := "2.0", result := some (.initResult protocolVersion),
    error := none, id := idOrNull request.id, _sessionId := none }

/-- `StreamableHttpTransport.processMcpRequest`: the method switch. -/
def processMcpRequest (ctx : ServerCtx) (request : RpcMsg) : RpcResponse :=
  match request.method with
  | some "initialize" => handleInitMsg request
  | some "prompts/list" =>
    { jsonrpc := "2.0", result := some (.promptsList ctx.prompts), error := none,
      id := idOrNull request.id, _sessionId := none }
  | some "prompts/get" =>
    { jsonrpc := "2.0", result := none,
      error := some ⟨-32601, "Prompts not implemented yet"⟩,
      id := idOrNull request.id, _sessionId := none }
  | some "tools/list" =>
    { jsonrpc := "2.0", result := some (.toolsList ctx.tools), error := none,
      id := idOrNull request.id, _sessionId := none }
  | some "tools/call" =>
    { jsonrpc := "2.0", result := none,
      error := some ⟨-32601, "Tools not implemented yet"⟩,
      id := idOrNull request.id, _sessionId := none }
  | some m =>
    { jsonrpc := "2.0", result := none,
      error := some ⟨-32601, "Method not found: " ++ m⟩,
      id := idOrNull request.id, _sessionId := none }
  | none =>
    { jsonrpc := "2.0", result := none,
      error := some ⟨-32601, "Method not found: undefined"⟩,
      id := idOrNull request.id, _sessionId := none }

/-- The `SessionData` record of the session store. -/
structure SessionData where
  id : String
  created : Nat
  lastActivity : Nat
deriving DecidableEq

/-- `StreamableHttpTransport.processRequest`.  `uuid` is the `uuidv4()` value
used if a session is created. -/
def processRequest (ctx : ServerCtx) (uuid : String) (now : Nat)
    (request : RpcMsg) (sessionId : Option String)
    (sessions : Store SessionData) : RpcResponse × Store SessionData :=
  if request.method = some "initialize" then
    let result := handleInitMsg request
    if !(jsTruthyS sessionId) then
      let sessions' := storeSet sessions uuid
        { id := uuid, created := now, lastActivity := now }
      ({ result with _sessionId := some uuid }, sessions')
    else (result, sessions)
  else
    let sessions' :=
      if jsTruthyS sessionId then
        match sessions (sessionId.getD "") with
        | some s => storeSet sessions (sessionId.getD "") { s with lastActivity := now }
        | none => sessions
      else sessions
    (processMcpRequest ctx request, sessions')

/-- The predicate `msg.method && msg.id !== undefined` classifying an element
as a request needing a reply. -/
def isRequestMsg (m : RpcMsg) : Bool := jsTruthyS m.method && m.id.isSome

/-- Sequential processing of a batch (`requests.map(request =>
this.processRequest(request, sessionId))`): threads the session store and the
supply `uuids` of fresh `uuidv4()` values (index `i` is the next unused one). -/
def processBatch (ctx : ServerCtx) (uuids : Nat → String) (now : Nat)
    (sessionId : Option String) :
    List RpcMsg → Nat → Store SessionData →
      List RpcResponse × Store SessionData × Nat
  | [], i, sessions => ([], sessions, i)
  | m :: ms, i, sessions =>
    let r := processRequest ctx (uuids i) now m sessionId sessions
    let i' := if m.method = some "initialize" && !(jsTruthyS sessionId) then i + 1 else i
    let rest := processBatch ctx uuids now sessionId ms i' r.2
    (r.1 :: rest.1, rest.2.1, rest.2.2)

/-- `streamResponse`'s header handling: `if (response._sessionId) {
setHeader('Mcp-Session-Id', ...); delete response._sessionId }`; returns the
header value and the payload actually serialized. -/
def stripSessionSingle (r : RpcResponse) : Option String × RpcResponse :=
  if jsTruthyS r._sessionId then (r._sessionId, { r with _sessionId := none })
  else (none, r)

/-- `streamBatchResponse`'s header handling: find the first response with a
truthy `_sessionId`, expose it as the header, and delete the field from every
response. -/
def stripSessionBatch (rs : List RpcResponse) : Option String × List RpcResponse :=
  match rs.find? (fun r => jsTruthyS r._sessionId) with
  | some r0 => (r0._sessionId, rs.map (fun r => { r with _sessionId := none }))
  | none => (none, rs)

/-- `getNextEventId`: `(++this.eventIdCounter).toString()`. -/
def getNextEventId (counter : Nat) : String × Nat :=
  (toString (counter + 1), counter + 1)

/-- `sendSSEEvent`: the bytes written for one SSE event (the `id:` line is
emitted only for a truthy id). -/
def sendSSEEvent (idOpt : Option String) (event : String) (dataJson : String) :
    String :=
  (if jsTruthyS idOpt then "id: " ++ idOpt.getD "" ++ "\n" else "") ++
    "event: " ++ event ++ "\n" ++ "data: " ++ dataJson ++ "\n\n"

/-- What `handlePost` sends back.  The JSON delivery paths
(`res.json(response)`) set no `Mcp-Session-Id` header, so their header
component is `none` by construction of the code path; the SSE paths carry the
header chosen by `stripSessionSingle`/`stripSessionBatch` and the SSE event id. -/
inductive HttpReply where
  | sessionNotFound
  | badAccept
  | accepted
  | jsonSingle (headerSessionId : Option String) (payload : RpcResponse)
  | sseSingle (headerSessionId : Option String) (payload : RpcResponse) (eventId : String)
  | jsonBatch (headerSessionId : Option String) (payload : List RpcResponse)
  | sseBatch (headerSessionId : Option String) (payload : List RpcResponse) (eventId : String)
deriving DecidableEq

/-- `StreamableHttpTransport.handleSingleRequest`. -/
def handleSingleRequest (ctx : ServerCtx) (uuid : String) (counter now : Nat)
    (accept : Option String) (request : RpcMsg) (sessionId : Option String)
    (sessions : Store SessionData) : HttpReply × Store SessionData × Nat :=
  let acceptsSSE :=
    match accept with
    | some a => jsIncludes a "text/event-stream"
    | none => false
  if acceptsSSE then
    let pr := processRequest ctx uuid now request sessionId sessions
    let hp := stripSessionSingle pr.1
    let ne := getNextEventId counter
    (.sseSingle hp.1 hp.2 ne.1, pr.2, ne.2)
  else
    let pr := processRequest ctx uuid now request sessionId sessions
    (.jsonSingle none pr.1, pr.2, counter)

/-- `StreamableHttpTransport.handleRequestBatch`. -/
def handleRequestBatch (ctx : ServerCtx) (uuids : Nat → String)
    (counter now : Nat) (accept : Option String) (requests : List RpcMsg)
    (sessionId : Option String) (sessions : Store SessionData) :
    HttpReply × Store SessionData × Nat :=
  let acceptsSSE :=
    match accept with
    | some a => jsIncludes a "text/event-stream"
    | none => false
  let pb := processBatch ctx uuids now sessionId requests 0 sessions
  if acceptsSSE then
    let hp := stripSessionBatch pb.1
    let ne := getNextEventId counter
    (.sseBatch hp.1 hp.2 ne.1, pb.2.1, ne.2)
  else
    (.jsonBatch none pb.1, pb.2.1, counter)

/-- The POST body once parsed: a JSON array of messages or a single object. -/
inductive PostBody where
  | arr (elems : List RpcMsg)
  | obj (msg : RpcMsg)
deriving DecidableEq

/-- The parts of a `POST /mcp` request the dispatcher reads. -/
structure PostRequest where
  sessionId : Option String
  accept : Option String
  body : PostBody
deriving DecidableEq

/-- `StreamableHttpTransport.handlePost`: session validation, `Accept`
negotiation, then batch/single/notification classification. -/
def handlePost (ctx : ServerCtx) (uuids : Nat → String) (counter now : Nat)
    (req : PostRequest) (sessions : Store SessionData) :
    HttpReply × Store SessionData × Nat :=
  let sessionId := req.sessionId
  if jsTruthyS sessionId && (sessions (sessionId.getD "")).isNone then
    (.sessionNotFound, sessions, counter)
  else
    let acceptHeader := req.accept.getD ""
    let acceptsJson := jsIncludes acceptHeader "application/json"
    let acceptsSSE := jsIncludes acceptHeader "text/event-stream"
    if !acceptsJson && !acceptsSSE then
      (.badAccept, sessions, counter)
    else
      match req.body with
      | .arr msgs =>
        if msgs.any isRequestMsg then
          handleRequestBatch ctx uuids counter now req.accept msgs sessionId sessions
        else (.accepted, sessions, counter)
      | .obj m =>
        if isRequestMsg m then
          handleSingleRequest ctx (uuids 0) counter now req.accept m sessionId sessions
        else (.accepted, sessions, counter)

/-! ## Theorems -/

/-- Claim C1: for every stored authorization code and every `code_verifier`
supplied to `POST /token` with `grant_type=authorization_code` (matching
`client_id`/`redirect_uri`, before expiry, all parameters present), the grant
handler mints and returns an access token if and only if the hash of the
verifier (`base64url(SHA256(code_verifier))`, abstracted as `hash`) equals
the stored `code_challenge`; on mismatch it answers `invalid_grant` with the
state unchanged, so no token is created. -/
theorem pkce_soundness_iff
    (hash : String → String) (now : Nat) (na nr : String)
    (body : TokenGrantBody) (st : OAuthState) (cd : CodeData)
    (hc : body.code ≠ "") (hr : body.redirect_uri ≠ "") (hi : body.client_id ≠ "")
    (hv : body.code_verifier ≠ "")
    (hstored : st.authorizationCodes body.code = some cd)
    (hcid : cd.client_id = body.client_id) (hruri : cd.redirect_uri = body.redirect_uri)
    (hfresh : ¬ cd.expires_at < now) :
    ((∃ a t e r s, (handleAuthorizationCodeGrant hash now na nr body st).1 =
        TokenResult.ok a t e r s) ↔
      hash body.code_verifier = cd.code_challenge) ∧
    (hash body.code_verifier = cd.code_challenge →
      (handleAuthorizationCodeGrant hash now na nr body st).1 =
        TokenResult.ok na "Bearer" 3600 nr cd.scope ∧
      (handleAuthorizationCodeGrant hash now na nr body st).2.accessTokens na =
        some ⟨na, "Bearer", 3600, cd.scope, now⟩) ∧
    (hash body.code_verifier ≠ cd.code_challenge →
      (handleAuthorizationCodeGrant hash now na nr body st).1 =
        TokenResult.err "invalid_grant" "Invalid code verifier" ∧
      (handleAuthorizationCodeGrant hash now na nr body st).2 = st) := by
  by_cases hch : hash body.code_verifier = cd.code_challenge
  · simp [handleAuthorizationCodeGrant, hc, hr, hi, hv, hstored, hfresh, hch, hcid, hruri,
      generateAccessToken, generateRefreshToken, storeSet]
  · simp [handleAuthorizationCodeGrant, hc, hr, hi, hv, hstored, hfresh, hch]

/-- Claim C2: an authorization code is single-use.  After one successful
redemption the code is deleted from the store, and a second redemption of the
same code (with any parameters) fails with `invalid_grant` and leaves the
state — in particular the access-token store — unchanged, so no further token
is ever minted from it. -/
theorem auth_code_single_use
    (hash : String → String) (now : Nat) (na nr : String)
    (body : TokenGrantBody) (st : OAuthState) (cd : CodeData)
    (hc : body.code ≠ "") (hr : body.redirect_uri ≠ "") (hi : body.client_id ≠ "")
    (hv : body.code_verifier ≠ "")
    (hstored : st.authorizationCodes body.code = some cd)
    (hcid : cd.client_id = body.client_id) (hruri : cd.redirect_uri = body.redirect_uri)
    (hfresh : ¬ cd.expires_at < now)
    (hch : hash body.code_verifier = cd.code_challenge)
    (hash2 : String → String) (now2 : Nat) (na2 nr2 : String)
    (body2 : TokenGrantBody)
    (h2c : body2.code = body.code) (h2r : body2.redirect_uri ≠ "")
    (h2i : body2.client_id ≠ "") (h2v : body2.code_verifier ≠ "") :
    (handleAuthorizationCodeGrant hash now na nr body st).1 =
      TokenResult.ok na "Bearer" 3600 nr cd.scope ∧
    (handleAuthorizationCodeGrant hash now na nr body st).2.authorizationCodes
        body.code = none ∧
    handleAuthorizationCodeGrant hash2 now2 na2 nr2 body2
        (handleAuthorizationCodeGrant hash now na nr body st).2 =
      (TokenResult.err "invalid_grant" "Invalid authorization code",
       (handleAuthorizationCodeGrant hash now na nr body st).2) := by
  have hc2 : body2.code ≠ "" := by rw [h2c]; exact hc
  simp [handleAuthorizationCodeGrant, hc, hr, hi, hv, hstored, hfresh, hch, hcid, hruri,
    hc2, h2r, h2i, h2v, h2c, generateAccessToken, generateRefreshToken, storeSet, storeDel]

/-- Claim C9: a failed `authorization_code` redemption is not consuming.  If
the PKCE verifier mismatches the stored challenge, or `client_id` /
`redirect_uri` mismatch the stored code, the handler answers `invalid_grant`
with the whole state unchanged, and the code remains redeemable with correct
parameters; in general the code store is modified only by a successful
redemption or by the expiry check, both of which delete the code. -/
theorem failed_redemption_not_consuming
    (hash : String → String) (now : Nat) (na nr : String)
    (body : TokenGrantBody) (st : OAuthState) (cd : CodeData)
    (hc : body.code ≠ "") (hr : body.redirect_uri ≠ "") (hi : body.client_id ≠ "")
    (hv : body.code_verifier ≠ "")
    (hstored : st.authorizationCodes body.code = some cd)
    (hfresh : ¬ cd.expires_at < now)
    (hbad : hash body.code_verifier ≠ cd.code_challenge ∨
      cd.client_id ≠ body.client_id ∨ cd.redirect_uri ≠ body.redirect_uri) :
    (∃ d, (handleAuthorizationCodeGrant hash now na nr body st).1 =
      TokenResult.err "invalid_grant" d) ∧
    (handleAuthorizationCodeGrant hash now na nr body st).2 = st ∧
    (∀ (hash' : String → String) (now' : Nat) (na' nr' : String) (body' : TokenGrantBody),
      body'.code = body.code → body'.client_id = cd.client_id →
      body'.redirect_uri = cd.redirect_uri → body'.code_verifier ≠ "" →
      body'.client_id ≠ "" → body'.redirect_uri ≠ "" →
      hash' body'.code_verifier = cd.code_challenge → ¬ cd.expires_at < now' →
      (handleAuthorizationCodeGrant hash' now' na' nr' body' st).1 =
        TokenResult.ok na' "Bearer" 3600 nr' cd.scope) ∧
    (∀ (hash' : String → String) (now' : Nat) (na' nr' : String) (body' : TokenGrantBody),
      (handleAuthorizationCodeGrant hash' now' na' nr' body' st).2.authorizationCodes =
        st.authorizationCodes ∨
      ((handleAuthorizationCodeGrant hash' now' na' nr' body' st).2.authorizationCodes =
          storeDel st.authorizationCodes body'.code ∧
        ((∃ a t e r s, (handleAuthorizationCodeGrant hash' now' na' nr' body' st).1 =
            TokenResult.ok a t e r s) ∨
          (handleAuthorizationCodeGrant hash' now' na' nr' body' st).1 =
            TokenResult.err "invalid_grant" "Authorization code expired"))) := by
  refine ⟨?_, ?_, ?_, ?_⟩
  · by_cases hch : hash body.code_verifier = cd.code_challenge
    · rcases hbad with h | h
      · exact absurd hch h
      · exact ⟨"Client or redirect URI mismatch", by
          simp [handleAuthorizationCodeGrant, hc, hr, hi, hv, hstored, hfresh, hch]
          rcases h with h | h <;> simp [h]⟩
    · exact ⟨"Invalid code verifier", by
        simp [handleAuthorizationCodeGrant, hc, hr, hi, hv, hstored, hfresh, hch]⟩
  · by_cases hch : hash body.code_verifier = cd.code_challenge
    · rcases hbad with h | h
      · exact absurd hch h
      · simp [handleAuthorizationCodeGrant, hc, hr, hi, hv, hstored, hfresh, hch]
        rcases h with h | h <;> simp [h]
    · simp [handleAuthorizationCodeGrant, hc, hr, hi, hv, hstored, hfresh, hch]
  · intro hash' now' na' nr' body' h'c h'i h'r h'v h'i2 h'r2 h'ch h'fresh
    have hc' : body'.code ≠ "" := by rw [h'c]; exact hc
    have hrd : cd.redirect_uri ≠ "" := h'r ▸ h'r2
    have hci : cd.client_id ≠ "" := h'i ▸ h'i2
    simp [handleAuthorizationCodeGrant, hc, hc', h'r2, h'i2, h'v, h'c, hstored, h'fresh,
      h'ch, h'i, h'r, hrd, hci, generateAccessToken, generateRefreshToken]
  · intro hash' now' na' nr' body'
    by_cases h1 : body'.code = "" ∨ body'.redirect_uri = "" ∨ body'.client_id = "" ∨
        body'.code_verifier = ""
    · left
      rcases h1 with h | h | h | h <;> simp [handleAuthorizationCodeGrant, h]
    · push_neg at h1
      obtain ⟨e1, e2, e3, e4⟩ := h1
      rcases hlook : st.authorizationCodes body'.code with _ | cd'
      · left; simp [handleAuthorizationCodeGrant, e1, e2, e3, e4, hlook]
      · by_cases hex : cd'.expires_at < now'
        · right
          constructor
          · simp [handleAuthorizationCodeGrant, e1, e2, e3, e4, hlook, hex]
          · right; simp [handleAuthorizationCodeGrant, e1, e2, e3, e4, hlook, hex]
        · by_cases hch' : hash' body'.code_verifier = cd'.code_challenge
          · by_cases hmm : cd'.client_id ≠ body'.client_id ∨
                cd'.redirect_uri ≠ body'.redirect_uri
            · left
              rcases hmm with h | h <;>
                simp [handleAuthorizationCodeGrant, e1, e2, e3, e4, hlook, hex, hch', h]
            · push_neg at hmm
              right
              constructor
              · simp [handleAuthorizationCodeGrant, e1, e2, e3, e4, hlook, hex, hch',
                  hmm.1, hmm.2, generateAccessToken, generateRefreshToken]
              · left
                refine ⟨na', "Bearer", 3600, nr', cd'.scope, ?_⟩
                simp [handleAuthorizationCodeGrant, e1, e2, e3, e4, hlook, hex, hch',
                  hmm.1, hmm.2, generateAccessToken, generateRefreshToken]
          · left
            simp [handleAuthorizationCodeGrant, e1, e2, e3, e4, hlook, hex, hch']

/-- Helper: a header of the form `Bearer <t>` passes the `startsWith('Bearer ')` check. -/
theorem bearer_startsWith (t : String) :
    jsStartsWith ("Bearer " ++ t) "Bearer " = true := by
  obtain ⟨l⟩ := t; rfl

/-- Helper: `substring(7)` on `Bearer <t>` yields exactly `<t>`. -/
theorem bearer_drop (t : String) : jsSubstringFrom ("Bearer " ++ t) 7 = t := by
  obtain ⟨l⟩ := t; rfl

/-- Claim C6: expiry is enforced lazily.  An authorization code issued by
`GET /authorize` at `now0` and presented to the token endpoint after
`now0 + 600000` ms (10 minutes) fails with `invalid_grant` and is deleted on
that check; an access token presented after `created_at + expires_in`
(seconds) is reported inactive by `POST /introspect` and rejected by the
authentication gate (when it is not also a configured API key), and the
expired token is purged from the store by that very lookup. -/
theorem lazy_expiry_enforcement
    (now0 now : Nat) (newCode : String) (q : AuthorizeQuery) (st : OAuthState)
    (client : ClientData) (cid ruri ch : String)
    (hq1 : q.response_type = some "code") (hq2 : q.client_id = some cid)
    (hcid : cid ≠ "") (hq3 : q.redirect_uri = some ruri) (hruri : ruri ≠ "")
    (hq4 : q.code_challenge = some ch) (hch : ch ≠ "")
    (hq5 : q.code_challenge_method = some "S256")
    (hcl : st.clients cid = some client)
    (hreg : ruri ∈ client.redirect_uris)
    (hncode : newCode ≠ "") (hlate : now0 + 600000 < now)
    (hash : String → String) (na nr cv : String) (hcv : cv ≠ "")
    (tok : String) (td : AccessToken) (st2 : OAuthState)
    (htd : st2.accessTokens tok = some td)
    (hexp : td.created_at + td.expires_in * 1000 < now)
    (keys : Option String) (req : AuthRequest)
    (hauth : req.authorization = some ("Bearer " ++ tok))
    (hkeys : tok ∉ apiKeysFromEnv keys) :
    (handleAuthorizationCodeGrant hash now na nr ⟨newCode, ruri, cid, cv⟩
        (handleAuthorizationRequest now0 newCode q st).2).1 =
      TokenResult.err "invalid_grant" "Authorization code expired" ∧
    (handleAuthorizationCodeGrant hash now na nr ⟨newCode, ruri, cid, cv⟩
        (handleAuthorizationRequest now0 newCode q st).2).2.authorizationCodes
        newCode = none ∧
    (handleTokenIntrospection now tok st2).1 = IntrospectResult.inactive ∧
    (handleTokenIntrospection now tok st2).2.accessTokens tok = none ∧
    (validateAuthentication true keys now req st2).1 =
      ⟨false, some "Invalid or expired access token/API key"⟩ ∧
    (validateAuthentication true keys now req st2).2.accessTokens tok = none := by
  have hlook : (handleAuthorizationRequest now0 newCode q st).2.authorizationCodes
      newCode =
      some { client_id := cid, redirect_uri := ruri,
             scope := if jsFalsyS q.scope then "mcp" else q.scope.getD "",
             code_challenge := ch, code_challenge_method := "S256",
             created_at := now0, expires_at := now0 + 600000 } := by
    simp [handleAuthorizationRequest, jsFalsyS, hq1, hq2, hq3, hq4, hq5, hcid, hruri,
      hch, hcl, hreg, storeSet]
  generalize hst1 : (handleAuthorizationRequest now0 newCode q st).2 = st1 at hlook ⊢
  refine ⟨?_, ?_, ?_, ?_, ?_, ?_⟩
  · simp [handleAuthorizationCodeGrant, hncode, hruri, hcid, hcv, hlook, hlate]
  · simp [handleAuthorizationCodeGrant, hncode, hruri, hcid, hcv, hlook, hlate, storeDel]
  · simp [handleTokenIntrospection, htd, hexp]
  · simp [handleTokenIntrospection, htd, hexp, storeDel]
  · simp [validateAuthentication, hauth, bearer_startsWith, bearer_drop,
      validateAccessToken, htd, hexp, hkeys]
  · simp [validateAuthentication, hauth, bearer_startsWith, bearer_drop,
      validateAccessToken, htd, hexp, hkeys, storeDel]

/-- Helper: batch processing produces exactly one response per element. -/
theorem processBatch_length (ctx : ServerCtx) (uuids : Nat → String) (now : Nat)
    (sessionId : Option String) :
    ∀ (msgs : List RpcMsg) (i : Nat) (sessions : Store SessionData),
      (processBatch ctx uuids now sessionId msgs i sessions).1.length = msgs.length := by
  intro msgs
  induction msgs with
  | nil => intro i s; rfl
  | cons m ms ih => intro i s; simp [processBatch, ih]

/-- Claim C4: a `POST /mcp` request whose `Mcp-Session-Id` header carries an
id (a non-empty value) not present in the session store is answered with the
404 `Session not found` reply before any method routing (whatever the body),
with the stores untouched; and `processRequest` adds a session to the store
only for an `initialize` message arriving without a session id. -/
theorem unknown_session_not_found
    (ctx : ServerCtx) (uuids : Nat → String) (counter now : Nat)
    (req : PostRequest) (sessions : Store SessionData) (sid : String)
    (hsid : req.sessionId = some sid) (hne : sid ≠ "")
    (hunknown : sessions sid = none) :
    handlePost ctx uuids counter now req sessions = (.sessionNotFound, sessions, counter) ∧
    (∀ (uuid : String) (m : RpcMsg) (sid' : Option String) (ss : Store SessionData)
        (k : String),
      ss k = none → ((processRequest ctx uuid now m sid' ss).2) k ≠ none →
      m.method = some "initialize" ∧ jsTruthyS sid' = false ∧ k = uuid) := by
  constructor
  · simp [handlePost, hsid, jsTruthyS, jsFalsyS, hne, hunknown]
  · intro uuid m sid' ss k hk1 hk2
    by_cases hm : m.method = some "initialize"
    · by_cases ht : jsTruthyS sid' = true
      · exact absurd hk1 (by revert hk2; simp [processRequest, hm, ht])
      · refine ⟨hm, by simpa using ht, ?_⟩
        by_contra hku
        revert hk2
        simp [processRequest, hm, ht, storeSet, hku, hk1]
    · exfalso
      revert hk2
      by_cases ht : jsTruthyS sid' = true
      · rcases hss : ss (sid'.getD "") with _ | s
        · simp [processRequest, hm, ht, hss, hk1]
        · have hkk : k ≠ sid'.getD "" := by
            intro h; rw [h, hss] at hk1; cases hk1
          simp [processRequest, hm, ht, hss, storeSet, hkk, hk1]
      · simp [processRequest, hm, ht, hk1]

/-- Claim C10: a `POST /mcp` request with no `Mcp-Session-Id` header is never
rejected for session reasons — `handlePost` never returns the session-not-
found reply when the header is absent, for any body and `Accept` header —
and a non-`initialize` request such as `tools/list` is routed through
`processMcpRequest` and answered normally with no session existing and the
session store left unchanged. -/
theorem no_session_header_routes
    (ctx : ServerCtx) (uuids : Nat → String) (counter now : Nat)
    (accept : Option String) (sessions : Store SessionData) (m : RpcMsg)
    (hreq : isRequestMsg m = true) (hnotinit : m.method ≠ some "initialize")
    (haj : jsIncludes (accept.getD "") "application/json" = true)
    (hns : jsIncludes (accept.getD "") "text/event-stream" = false) :
    (∀ (accept' : Option String) (body' : PostBody),
      (handlePost ctx uuids counter now ⟨none, accept', body'⟩ sessions).1 ≠
        HttpReply.sessionNotFound) ∧
    handlePost ctx uuids counter now ⟨none, accept, .obj m⟩ sessions =
      (.jsonSingle none (processMcpRequest ctx m), sessions, counter) := by
  constructor
  · intro accept' body'
    cases body' with
    | arr msgs =>
      simp only [handlePost, handleRequestBatch, jsTruthyS, jsFalsyS]
      split_ifs <;> simp_all
    | obj mm =>
      simp only [handlePost, handleSingleRequest, jsTruthyS, jsFalsyS]
      split_ifs <;> simp_all
  · rcases accept with _ | a
    · exact absurd haj (by decide)
    · simp only [Option.getD] at haj hns
      simp [handlePost, handleSingleRequest, processRequest, hreq, hnotinit, haj, hns,
        jsTruthyS, jsFalsyS]

/-- Claim C5 (amended): for a JSON-array body, if at least one element has a
truthy (non-empty) `method` and a present `id`, the dispatcher produces a
batch reply array with one response per element; if no element has both, it
acknowledges with HTTP 202 and no body; a non-array object lacking a truthy
`method` or an `id` is likewise acknowledged with 202. -/
theorem batch_classification_amended
    (ctx : ServerCtx) (uuids : Nat → String) (counter now : Nat)
    (accept : Option String) (sessions : Store SessionData)
    (haj : jsIncludes (accept.getD "") "application/json" = true)
    (hns : jsIncludes (accept.getD "") "text/event-stream" = false) :
    (∀ msgs : List RpcMsg, msgs.any isRequestMsg = true →
      ∃ rs : List RpcResponse,
        (handlePost ctx uuids counter now ⟨none, accept, .arr msgs⟩ sessions).1 =
          .jsonBatch none rs ∧ rs.length = msgs.length) ∧
    (∀ msgs : List RpcMsg, msgs.any isRequestMsg = false →
      handlePost ctx uuids counter now ⟨none, accept, .arr msgs⟩ sessions =
        (.accepted, sessions, counter)) ∧
    (∀ m : RpcMsg, isRequestMsg m = false →
      handlePost ctx uuids counter now ⟨none, accept, .obj m⟩ sessions =
        (.accepted, sessions, counter)) := by
  rcases accept with _ | a
  · exact absurd haj (by decide)
  · simp only [Option.getD] at haj hns
    refine ⟨?_, ?_, ?_⟩
    · intro msgs hany
      refine ⟨(processBatch ctx uuids now none msgs 0 sessions).1, ?_, ?_⟩
      · simp [handlePost, handleRequestBatch, jsTruthyS, jsFalsyS, haj, hns, hany]
      · exact processBatch_length ctx uuids now none msgs 0 sessions
    · intro msgs hany
      simp [handlePost, jsTruthyS, jsFalsyS, haj, hns, hany]
    · intro m hm
      simp [handlePost, jsTruthyS, jsFalsyS, haj, hns, hm]

/-- Helper: `processMcpRequest` never attaches a `_sessionId` field. -/
theorem processMcpRequest_sessionId (ctx : ServerCtx) (m : RpcMsg) :
    (processMcpRequest ctx m)._sessionId = none := by
  unfold processMcpRequest
  rcases m.method with _ | s
  · rfl
  · split <;> simp [handleInitMsg]

/-- Helper: without a session id, a non-`initialize` request is routed to
`processMcpRequest` and leaves the session store unchanged. -/
theorem processRequest_no_init (ctx : ServerCtx) (uuid : String) (now : Nat)
    (m : RpcMsg) (sessions : Store SessionData)
    (hm : m.method ≠ some "initialize") :
    (processRequest ctx uuid now m none sessions).1 = processMcpRequest ctx m ∧
    (processRequest ctx uuid now m none sessions).2 = sessions := by
  simp [processRequest, hm, jsTruthyS, jsFalsyS]

/-- Helper: in a batch with no `initialize` element, no response carries a
`_sessionId` field. -/
theorem processBatch_no_init_sessionIds (ctx : ServerCtx) (uuids : Nat → String)
    (now : Nat) :
    ∀ (msgs : List RpcMsg) (i : Nat) (sessions : Store SessionData),
      (∀ m ∈ msgs, m.method ≠ some "initialize") →
      ∀ r ∈ (processBatch ctx uuids now none msgs i sessions).1,
        r._sessionId = none := by
  intro msgs
  induction msgs with
  | nil => intro i s _ r hr; simp [processBatch] at hr
  | cons m ms ih =>
    intro i s h r hr
    simp only [processBatch, List.mem_cons] at hr
    rcases hr with hr | hr
    · rw [hr, (processRequest_no_init ctx (uuids i) now m s (h m (by simp))).1]
      exact processMcpRequest_sessionId ctx m
    · exact ih _ _ (fun m' hm' => h m' (by simp [hm'])) r hr

/-- Helper: stripping is the identity on a batch of responses none of which
carries a `_sessionId`. -/
theorem stripSessionBatch_all_none (rs : List RpcResponse)
    (h : ∀ r ∈ rs, r._sessionId = none) : stripSessionBatch rs = (none, rs) := by
  unfold stripSessionBatch
  have hf : rs.find? (fun r => jsTruthyS r._sessionId) = none := by
    apply List.find?_eq_none.mpr
    intro r hr
    simp [h r hr, jsTruthyS, jsFalsyS]
  rw [hf]

/-- Claim C8 (amended): for every request body whose processing does not
create a new session (here: single requests that are not `initialize`, and
batches with no `initialize` element, sent without a session header), the
JSON-mode run and the SSE-mode run of the dispatcher produce the same reply
payload value — hence byte-equivalent serializations — differing only in
framing: the legacy `sendResponse` frames the same serialized JSON as
`data: <json>\n\n` versus the raw body, and `sendSSEEvent` wraps it in
`id:`/`event:` lines plus `data: <json>` and a blank line.  (When a new
session is created the payloads differ: see the counterexample.) -/
theorem content_negotiation_amended
    (ctx : ServerCtx) (uuids : Nat → String) (counter now : Nat)
    (a1 a2 : String) (sessions : Store SessionData)
    (h1j : jsIncludes a1 "application/json" = true)
    (h1s : jsIncludes a1 "text/event-stream" = false)
    (h2s : jsIncludes a2 "text/event-stream" = true) :
    (∀ m : RpcMsg, isRequestMsg m = true → m.method ≠ some "initialize" →
      (handlePost ctx uuids counter now ⟨none, some a1, .obj m⟩ sessions).1 =
        .jsonSingle none (processMcpRequest ctx m) ∧
      (handlePost ctx uuids counter now ⟨none, some a2, .obj m⟩ sessions).1 =
        .sseSingle none (processMcpRequest ctx m) (toString (counter + 1))) ∧
    (∀ msgs : List RpcMsg, msgs.any isRequestMsg = true →
      (∀ m ∈ msgs, m.method ≠ some "initialize") →
      (handlePost ctx uuids counter now ⟨none, some a1, .arr msgs⟩ sessions).1 =
        .jsonBatch none (processBatch ctx uuids now none msgs 0 sessions).1 ∧
      (handlePost ctx uuids counter now ⟨none, some a2, .arr msgs⟩ sessions).1 =
        .sseBatch none (processBatch ctx uuids now none msgs 0 sessions).1
          (toString (counter + 1))) ∧
    (∀ json : String,
      sendResponseBody (some "text/event-stream") json = "data: " ++ json ++ "\n\n" ∧
      sendResponseBody (some "application/json") json = json) ∧
    (∀ eid json : String, eid ≠ "" →
      sendSSEEvent (some eid) "message" json =
        "id: " ++ eid ++ "\n" ++ "event: " ++ "message" ++ "\n" ++
          "data: " ++ json ++ "\n\n") := by
  refine ⟨?_, ?_, ?_, ?_⟩
  · intro m hreq hni
    constructor
    · simp [handlePost, handleSingleRequest, processRequest, hreq, hni, h1j, h1s,
        jsTruthyS, jsFalsyS]
    · simp [handlePost, handleSingleRequest, processRequest, hreq, hni, h2s,
        jsTruthyS, jsFalsyS, stripSessionSingle, processMcpRequest_sessionId,
        getNextEventId]
  · intro msgs hany hall
    have hstrip := stripSessionBatch_all_none
      (processBatch ctx uuids now none msgs 0 sessions).1
      (processBatch_no_init_sessionIds ctx uuids now msgs 0 sessions hall)
    constructor
    · simp [handlePost, handleRequestBatch, hany, h1j, h1s, jsTruthyS, jsFalsyS]
    · simp [handlePost, handleRequestBatch, hany, h2s, jsTruthyS, jsFalsyS, hstrip,
        getNextEventId]
  · intro json
    have hx : jsIncludes "text/event-stream" "text/event-stream" = true := by decide
    have hy : jsIncludes "application/json" "text/event-stream" = false := by decide
    constructor
    · simp [sendResponseBody, jsTruthyS, jsFalsyS, hx]
    · simp [sendResponseBody, jsTruthyS, jsFalsyS, hy]
  · intro eid json heid
    simp [sendSSEEvent, jsTruthyS, jsFalsyS, heid]

/-- Claim C3 (amended): with the auth-required flag off, the gate admits
every request.  With the flag on, the strict draft of
`validateAuthentication` rejects every request whose `Authorization` header
is missing or does not start with `Bearer `; a presented Bearer token is
checked first against the OAuth access-token store, then against the static
API-key list, first match admitting, and a token matching neither is
rejected.  The browser-lenient first draft deviates exactly when the Bearer
header is missing: it admits every `GET`, and admits non-`GET` requests
carrying an `Origin` header or a Mozilla/Chrome/Safari `User-Agent`,
rejecting only the rest. -/
theorem auth_gate_characterization
    (keys : Option String) (now : Nat) (req : AuthRequest) (st : OAuthState) :
    validateAuthentication false keys now req st = (⟨true, none⟩, st) ∧
    (req.authorization = none →
      validateAuthentication true keys now req st =
        (⟨false, some "Missing Authorization header with Bearer token"⟩, st)) ∧
    (∀ hd, req.authorization = some hd → jsStartsWith hd "Bearer " = false →
      validateAuthentication true keys now req st =
        (⟨false, some "Missing Authorization header with Bearer token"⟩, st)) ∧
    (∀ hd, req.authorization = some hd → jsStartsWith hd "Bearer " = true →
      (validateAccessToken now (jsSubstringFrom hd 7) st).1 = true →
      (validateAuthentication true keys now req st).1 = ⟨true, none⟩) ∧
    (∀ hd, req.authorization = some hd → jsStartsWith hd "Bearer " = true →
      (validateAccessToken now (jsSubstringFrom hd 7) st).1 = false →
      jsSubstringFrom hd 7 ∈ apiKeysFromEnv keys →
      (validateAuthentication true keys now req st).1 = ⟨true, none⟩) ∧
    (∀ hd, req.authorization = some hd → jsStartsWith hd "Bearer " = true →
      (validateAccessToken now (jsSubstringFrom hd 7) st).1 = false →
      jsSubstringFrom hd 7 ∉ apiKeysFromEnv keys →
      (validateAuthentication true keys now req st).1 =
        ⟨false, some "Invalid or expired access token/API key"⟩) ∧
    (req.authorization = none → req.method = "GET" →
      (validateAuthenticationBrowserLenient true keys now req st).1 = ⟨true, none⟩) ∧
    (req.authorization = none → req.method ≠ "GET" →
      (jsTruthyS req.origin || jsIncludes (req.userAgent.getD "") "Mozilla" ||
        jsIncludes (req.userAgent.getD "") "Chrome" ||
        jsIncludes (req.userAgent.getD "") "Safari") = true →
      (validateAuthenticationBrowserLenient true keys now req st).1 = ⟨true, none⟩) ∧
    (req.authorization = none → req.method ≠ "GET" →
      (jsTruthyS req.origin || jsIncludes (req.userAgent.getD "") "Mozilla" ||
        jsIncludes (req.userAgent.getD "") "Chrome" ||
        jsIncludes (req.userAgent.getD "") "Safari") = false →
      (validateAuthenticationBrowserLenient true keys now req st).1 =
        ⟨false, some "Missing Authorization header with Bearer token"⟩) := by
  refine ⟨?_, ?_, ?_, ?_, ?_, ?_, ?_, ?_, ?_⟩
  · simp [validateAuthentication]
  · intro ha; simp [validateAuthentication, ha]
  · intro hd ha hb; simp [validateAuthentication, ha, hb]
  · intro hd ha hb hv; simp [validateAuthentication, ha, hb, hv]
  · intro hd ha hb hv hk; simp [validateAuthentication, ha, hb, hv, hk]
  · intro hd ha hb hv hk; simp [validateAuthentication, ha, hb, hv, hk]
  · intro ha hg; simp [validateAuthenticationBrowserLenient, ha, hg]
  · intro ha hg hbr; simp [validateAuthenticationBrowserLenient, ha, hg, hbr]
  · intro ha hg hbr; simp [validateAuthenticationBrowserLenient, ha, hg, hbr]

/-- Claim C3 counterexample: with the auth-required flag on, the
browser-lenient draft of `validateAuthentication` (http.ts lines 30-86)
admits a `GET` request with no `Authorization` header at all, contradicting
the claim that every such request is rejected; the strict draft (lines
984-1022) rejects the same request. -/
theorem auth_gate_browser_get_cex :
    (validateAuthenticationBrowserLenient true (some "k1,k2") 0
      { method := "GET", authorization := none, origin := none, userAgent := none }
      ⟨storeEmpty, storeEmpty, storeEmpty, storeEmpty⟩).1 =
      { isValid := true, error := none } ∧
    (validateAuthentication true (some "k1,k2") 0
      { method := "GET", authorization := none, origin := none, userAgent := none }
      ⟨storeEmpty, storeEmpty, storeEmpty, storeEmpty⟩).1 =
      { isValid := false,
        error := some "Missing Authorization header with Bearer token" } := by
  constructor
  · rfl
  · rfl

/-- Claim C5 counterexample: the array body `[{method: "", id: 1}]` — whose
single element has both a `method` field and an `id` field — is answered
with HTTP 202 and no body, because the dispatcher tests JavaScript
truthiness of `method` (`msg.method && msg.id !== undefined`), not field
presence, and the empty string is falsy. -/
theorem batch_empty_method_cex :
    (handlePost ⟨[], []⟩ (fun _ => "U") 0 0
      { sessionId := none, accept := some "application/json",
        body := .arr [{ method := some "", id := some (.num 1),
                        paramsProtocolVersion := none }] }
      storeEmpty).1 = HttpReply.accepted := by decide

/-- Claim C7 (code bug): for an `initialize` request creating a new session,
the plain-JSON delivery path returns the reply with the fresh session id
embedded in the body as `_sessionId` and sets no `Mcp-Session-Id` response
header (the `jsonSingle` reply carries header `none`), while the SSE path
sets the header and strips the field — contradicting the in-code comment
that the `_sessionId` marker "will be handled by caller" on both paths. -/
theorem session_header_json_leak :
    (handlePost ⟨[], []⟩ (fun _ => "SESS-A") 0 0
      { sessionId := none, accept := some "application/json",
        body := .obj { method := some "initialize", id := some (.num 1),
                       paramsProtocolVersion := some "2025-03-26" } }
      storeEmpty).1 =
      HttpReply.jsonSingle none
        { jsonrpc := "2.0", result := some (.initResult "2025-03-26"),
          error := none, id := .num 1, _sessionId := some "SESS-A" } ∧
    (handlePost ⟨[], []⟩ (fun _ => "SESS-A") 0 0
      { sessionId := none, accept := some "text/event-stream",
        body := .obj { method := some "initialize", id := some (.num 1),
                       paramsProtocolVersion := some "2025-03-26" } }
      storeEmpty).1 =
      HttpReply.sseSingle (some "SESS-A")
        { jsonrpc := "2.0", result := some (.initResult "2025-03-26"),
          error := none, id := .num 1, _sessionId := none } "1" := by
  constructor
  · decide
  · decide

/-- Claim C8 counterexample: an `initialize` body with no session header
yields, under `Accept: application/json`, a payload containing the extra
`_sessionId` field, and under `Accept: text/event-stream` a payload with
that field removed; the two payloads are different values, so the serialized
JSON-RPC payloads are not byte-equivalent. -/
theorem content_negotiation_cex :
    (handlePost ⟨[], []⟩ (fun _ => "SESS-B") 0 0
      { sessionId := none, accept := some "application/json",
        body := .obj { method := some "initialize", id := some (.num 2),
                       paramsProtocolVersion := some "2025-03-26" } }
      storeEmpty).1 =
      HttpReply.jsonSingle none
        { jsonrpc := "2.0", result := some (.initResult "2025-03-26"),
          error := none, id := .num 2, _sessionId := some "SESS-B" } ∧
    (handlePost ⟨[], []⟩ (fun _ => "SESS-B") 0 0
      { sessionId := none, accept := some "text/event-stream",
        body := .obj { method := some "initialize", id := some (.num 2),
                       paramsProtocolVersion := some "2025-03-26" } }
      storeEmpty).1 =
      HttpReply.sseSingle (some "SESS-B")
        { jsonrpc := "2.0", result := some (.initResult "2025-03-26"),
          error := none, id := .num 2, _sessionId := none } "1" ∧
    ({ jsonrpc := "2.0", result := some (.initResult "2025-03-26"),
       error := none, id := .num 2, _sessionId := some "SESS-B" } : RpcResponse) ≠
      { jsonrpc := "2.0", result := some (.initResult "2025-03-26"),
        error := none, id := .num 2, _sessionId := none } := by
  refine ⟨by decide, by decide, by decide⟩

/-- Witness for C1 at a concrete store, code and verifier (hash
instantiated as a constant function matching the stored challenge). -/
theorem pkce_soundness_iff_witness :
    (handleAuthorizationCodeGrant (fun _ => "CH") 99 "AT" "RT"
        ⟨"C", "https://cb", "CID", "V"⟩
        ⟨storeEmpty,
         storeSet storeEmpty "C" ⟨"CID", "https://cb", "mcp", "CH", "S256", 0, 999999⟩,
         storeEmpty, storeEmpty⟩).1 =
      TokenResult.ok "AT" "Bearer" 3600 "RT" "mcp" ∧
    (handleAuthorizationCodeGrant (fun _ => "CH") 99 "AT" "RT"
        ⟨"C", "https://cb", "CID", "V"⟩
        ⟨storeEmpty,
         storeSet storeEmpty "C" ⟨"CID", "https://cb", "mcp", "CH", "S256", 0, 999999⟩,
         storeEmpty, storeEmpty⟩).2.accessTokens "AT" =
      some ⟨"AT", "Bearer", 3600, "mcp", 99⟩ :=
  (pkce_soundness_iff (fun _ => "CH") 99 "AT" "RT"
    ⟨"C", "https://cb", "CID", "V"⟩
    ⟨storeEmpty,
     storeSet storeEmpty "C" ⟨"CID", "https://cb", "mcp", "CH", "S256", 0, 999999⟩,
     storeEmpty, storeEmpty⟩
    ⟨"CID", "https://cb", "mcp", "CH", "S256", 0, 999999⟩
    (by decide) (by decide) (by decide) (by decide) rfl rfl rfl (by decide)).2.1 rfl

/-- Witness for C2 at a concrete store and code. -/
theorem auth_code_single_use_witness :
    (handleAuthorizationCodeGrant (fun _ => "CH") 99 "AT" "RT"
        ⟨"C", "https://cb", "CID", "V"⟩
        ⟨storeEmpty,
         storeSet storeEmpty "C" ⟨"CID", "https://cb", "mcp", "CH", "S256", 0, 999999⟩,
         storeEmpty, storeEmpty⟩).2.authorizationCodes "C" = none ∧
    handleAuthorizationCodeGrant (fun _ => "K") 100 "AT2" "RT2"
        ⟨"C", "u", "i", "v"⟩
        (handleAuthorizationCodeGrant (fun _ => "CH") 99 "AT" "RT"
          ⟨"C", "https://cb", "CID", "V"⟩
          ⟨storeEmpty,
           storeSet storeEmpty "C" ⟨"CID", "https://cb", "mcp", "CH", "S256", 0, 999999⟩,
           storeEmpty, storeEmpty⟩).2 =
      (TokenResult.err "invalid_grant" "Invalid authorization code",
       (handleAuthorizationCodeGrant (fun _ => "CH") 99 "AT" "RT"
         ⟨"C", "https://cb", "CID", "V"⟩
         ⟨storeEmpty,
          storeSet storeEmpty "C" ⟨"CID", "https://cb", "mcp", "CH", "S256", 0, 999999⟩,
          storeEmpty, storeEmpty⟩).2) := by
  have H := auth_code_single_use (fun _ => "CH") 99 "AT" "RT"
    ⟨"C", "https://cb", "CID", "V"⟩
    ⟨storeEmpty,
     storeSet storeEmpty "C" ⟨"CID", "https://cb", "mcp", "CH", "S256", 0, 999999⟩,
     storeEmpty, storeEmpty⟩
    ⟨"CID", "https://cb", "mcp", "CH", "S256", 0, 999999⟩
    (by decide) (by decide) (by decide) (by decide) rfl rfl rfl (by decide) rfl
    (fun _ => "K") 100 "AT2" "RT2" ⟨"C", "u", "i", "v"⟩
    rfl (by decide) (by decide) (by decide)
  exact ⟨H.2.1, H.2.2⟩

/-- Witness for C9: a mismatching verifier leaves the concrete store unchanged and the code stays redeemable. -/
theorem failed_redemption_not_consuming_witness :
    (handleAuthorizationCodeGrant (fun _ => "WRONG") 99 "AT" "RT"
        ⟨"C", "https://cb", "CID", "V"⟩
        ⟨storeEmpty,
         storeSet storeEmpty "C" ⟨"CID", "https://cb", "mcp", "CH", "S256", 0, 999999⟩,
         storeEmpty, storeEmpty⟩).2 =
      ⟨storeEmpty,
       storeSet storeEmpty "C" ⟨"CID", "https://cb", "mcp", "CH", "S256", 0, 999999⟩,
       storeEmpty, storeEmpty⟩ ∧
    (handleAuthorizationCodeGrant (fun _ => "CH") 100 "AT2" "RT2"
        ⟨"C", "https://cb", "CID", "V2"⟩
        ⟨storeEmpty,
         storeSet storeEmpty "C" ⟨"CID", "https://cb", "mcp", "CH", "S256", 0, 999999⟩,
         storeEmpty, storeEmpty⟩).1 =
      TokenResult.ok "AT2" "Bearer" 3600 "RT2" "mcp" := by
  have H := failed_redemption_not_consuming (fun _ => "WRONG") 99 "AT" "RT"
    ⟨"C", "https://cb", "CID", "V"⟩
    ⟨storeEmpty,
     storeSet storeEmpty "C" ⟨"CID", "https://cb", "mcp", "CH", "S256", 0, 999999⟩,
     storeEmpty, storeEmpty⟩
    ⟨"CID", "https://cb", "mcp", "CH", "S256", 0, 999999⟩
    (by decide) (by decide) (by decide) (by decide) rfl (by decide) (Or.inl (by decide))
  exact ⟨H.2.1, H.2.2.1 (fun _ => "CH") 100 "AT2" "RT2" ⟨"C", "https://cb", "CID", "V2"⟩
    rfl rfl rfl (by decide) (by decide) (by decide) rfl (by decide)⟩

/-- Witness for C6 at concrete clocks, code, token and gate request. -/
theorem lazy_expiry_enforcement_witness :
    (handleAuthorizationCodeGrant (fun _ => "CH") 4000001 "AT" "RT"
        ⟨"AC", "https://cb", "CID", "V"⟩
        (handleAuthorizationRequest 0 "AC"
          ⟨some "code", some "CID", some "https://cb", none, none, some "CH", some "S256"⟩
          ⟨storeSet storeEmpty "CID" ⟨"SEC", ["https://cb"], "mcp"⟩,
           storeEmpty, storeEmpty, storeEmpty⟩).2).1 =
      TokenResult.err "invalid_grant" "Authorization code expired" ∧
    (handleTokenIntrospection 4000001 "TOK"
        ⟨storeEmpty, storeEmpty,
         storeSet storeEmpty "TOK" ⟨"TOK", "Bearer", 3600, "mcp", 0⟩, storeEmpty⟩).1 =
      IntrospectResult.inactive ∧
    (validateAuthentication true (some "k1,k2") 4000001
        ⟨"POST", some ("Bearer " ++ "TOK"), none, none⟩
        ⟨storeEmpty, storeEmpty,
         storeSet storeEmpty "TOK" ⟨"TOK", "Bearer", 3600, "mcp", 0⟩, storeEmpty⟩).1 =
      { isValid := false, error := some "Invalid or expired access token/API key" } := by
  have H := lazy_expiry_enforcement 0 4000001 "AC"
    ⟨some "code", some "CID", some "https://cb", none, none, some "CH", some "S256"⟩
    ⟨storeSet storeEmpty "CID" ⟨"SEC", ["https://cb"], "mcp"⟩,
     storeEmpty, storeEmpty, storeEmpty⟩
    ⟨"SEC", ["https://cb"], "mcp"⟩ "CID" "https://cb" "CH"
    rfl rfl (by decide) rfl (by decide) rfl (by decide) rfl rfl (by decide)
    (by decide) (by decide)
    (fun _ => "CH") "AT" "RT" "V" (by decide)
    "TOK" ⟨"TOK", "Bearer", 3600, "mcp", 0⟩
    ⟨storeEmpty, storeEmpty,
     storeSet storeEmpty "TOK" ⟨"TOK", "Bearer", 3600, "mcp", 0⟩, storeEmpty⟩
    rfl (by decide) (some "k1,k2")
    ⟨"POST", some ("Bearer " ++ "TOK"), none, none⟩ rfl (by decide)
  exact ⟨H.1, H.2.2.1, H.2.2.2.2.1⟩

/-- Witness for C3 (amended) at concrete requests and key list. -/
theorem auth_gate_characterization_witness :
    validateAuthentication false (some "k1") 0 ⟨"POST", none, none, none⟩
        ⟨storeEmpty, storeEmpty, storeEmpty, storeEmpty⟩ =
      ({ isValid := true, error := none },
       ⟨storeEmpty, storeEmpty, storeEmpty, storeEmpty⟩) ∧
    validateAuthentication true (some "k1") 0 ⟨"POST", none, none, none⟩
        ⟨storeEmpty, storeEmpty, storeEmpty, storeEmpty⟩ =
      ({ isValid := false,
         error := some "Missing Authorization header with Bearer token" },
       ⟨storeEmpty, storeEmpty, storeEmpty, storeEmpty⟩) ∧
    (validateAuthentication true (some "k1") 0 ⟨"POST", some "Bearer k1", none, none⟩
        ⟨storeEmpty, storeEmpty, storeEmpty, storeEmpty⟩).1 =
      { isValid := true, error := none } ∧
    (validateAuthenticationBrowserLenient true (some "k1") 0 ⟨"GET", none, none, none⟩
        ⟨storeEmpty, storeEmpty, storeEmpty, storeEmpty⟩).1 =
      { isValid := true, error := none } := by
  have H1 := auth_gate_characterization (some "k1") 0 ⟨"POST", none, none, none⟩
    ⟨storeEmpty, storeEmpty, storeEmpty, storeEmpty⟩
  have H2 := auth_gate_characterization (some "k1") 0 ⟨"POST", some "Bearer k1", none, none⟩
    ⟨storeEmpty, storeEmpty, storeEmpty, storeEmpty⟩
  have H3 := auth_gate_characterization (some "k1") 0 ⟨"GET", none, none, none⟩
    ⟨storeEmpty, storeEmpty, storeEmpty, storeEmpty⟩
  exact ⟨H1.1, H1.2.1 rfl,
    H2.2.2.2.2.1 "Bearer k1" rfl (by decide) (by decide) (by decide),
    H3.2.2.2.2.2.2.1 rfl (by decide)⟩

/-- Witness for C4: a concrete unknown session id is answered with the 404 reply. -/
theorem unknown_session_not_found_witness :
    handlePost ⟨[], []⟩ (fun _ => "U") 0 0
      ⟨some "ghost", some "application/json",
        .obj ⟨some "tools/list", some (.num 1), none⟩⟩ storeEmpty =
      (.sessionNotFound, storeEmpty, 0) :=
  (unknown_session_not_found ⟨[], []⟩ (fun _ => "U") 0 0
    ⟨some "ghost", some "application/json",
      .obj ⟨some "tools/list", some (.num 1), none⟩⟩ storeEmpty "ghost"
    rfl (by decide) rfl).1

/-- Witness for C10: a concrete `tools/list` request with no session header is routed normally. -/
theorem no_session_header_routes_witness :
    handlePost ⟨[], []⟩ (fun _ => "U") 7 0
      ⟨none, some "application/json", .obj ⟨some "tools/list", some (.num 1), none⟩⟩
      storeEmpty =
      (.jsonSingle none
        (processMcpRequest ⟨[], []⟩ ⟨some "tools/list", some (.num 1), none⟩),
       storeEmpty, 7) :=
  (no_session_header_routes ⟨[], []⟩ (fun _ => "U") 7 0 (some "application/json")
    storeEmpty ⟨some "tools/list", some (.num 1), none⟩
    (by decide) (by decide) (by decide) (by decide)).2

/-- Witness for C5 (amended): a concrete notification-only array and a concrete notification object are both acknowledged with 202. -/
theorem batch_classification_amended_witness :
    handlePost ⟨[], []⟩ (fun _ => "U") 3 0
      ⟨none, some "application/json", .arr [⟨some "notify", none, none⟩]⟩
      storeEmpty = (.accepted, storeEmpty, 3) ∧
    handlePost ⟨[], []⟩ (fun _ => "U") 3 0
      ⟨none, some "application/json", .obj ⟨none, none, none⟩⟩
      storeEmpty = (.accepted, storeEmpty, 3) := by
  have H := batch_classification_amended ⟨[], []⟩ (fun _ => "U") 3 0
    (some "application/json") storeEmpty (by decide) (by decide)
  exact ⟨H.2.1 [⟨some "notify", none, none⟩] (by decide),
    H.2.2 ⟨none, none, none⟩ (by decide)⟩

/-- Witness for C8 (amended): a concrete `tools/list` body produces identical payloads in JSON and SSE modes. -/
theorem content_negotiation_amended_witness :
    (handlePost ⟨[], []⟩ (fun _ => "U") 0 0
      ⟨none, some "application/json", .obj ⟨some "tools/list", some (.num 1), none⟩⟩
      storeEmpty).1 =
      .jsonSingle none
        (processMcpRequest ⟨[], []⟩ ⟨some "tools/list", some (.num 1), none⟩) ∧
    (handlePost ⟨[], []⟩ (fun _ => "U") 0 0
      ⟨none, some "text/event-stream", .obj ⟨some "tools/list", some (.num 1), none⟩⟩
      storeEmpty).1 =
      .sseSingle none
        (processMcpRequest ⟨[], []⟩ ⟨some "tools/list", some (.num 1), none⟩)
        (toString (0 + 1)) ∧
    sendResponseBody (some "text/event-stream") "X" = "data: " ++ "X" ++ "\n\n" ∧
    sendResponseBody (some "application/json") "X" = "X" := by
  have H := content_negotiation_amended ⟨[], []⟩ (fun _ => "U") 0 0
    "application/json" "text/event-stream" storeEmpty
    (by decide) (by decide) (by decide)
  have h1 := H.1 ⟨some "tools/list", some (.num 1), none⟩ (by decide) (by decide)
  exact ⟨h1.1, h1.2, (H.2.2.1 "X").1, (H.2.2.1 "X").2⟩
